import Mathlib

/-!
Verification of the supervised-embedding intent classifier
(`rasa_nlu/classifiers/embedding_intent_classifier.py`).

The Python source is shallowly embedded below.  Feature values and
similarity scores are modelled over `ℚ` where the source manipulates
concrete numeric arrays, and over `ℝ` where the mathematical content of a
property (normalization, softmax) matters.  The rational model of Python's
float arithmetic is exact at every concrete input evaluated here.
Fallible routines (ones that may `raise`) are embedded as `Except`-valued
functions, and the training routine as an explicit state-transition
function on a classifier-state record.
-/

namespace EmbeddingClassifier

/-! ### Batch-size schedule (`_linearly_increasing_batch_size`, lines 713-730) -/

/-- Python `int()` applied to a rational value: truncation toward zero.
The source computes the quotient in floating point; at the integer-valued
points the claims evaluate, the float quotient is exact, so the rational
model agrees with the source there. -/
def pyIntTrunc (q : ℚ) : Int :=
if q < 0 then -(Int.floor (-q)) else Int.floor q

/-- Source: `_linearly_increasing_batch_size(self, epoch)` with
`self.batch_size = [bstart, bend]` and `self.epochs = epochs`.
For more than one epoch the size is interpolated as
`int(bstart + epoch * (bend - bstart) / (epochs - 1))` and then bumped to
the next even number when odd; otherwise `int(self.batch_size[0])` — the
start value — is returned unchanged. -/
def linearlyIncreasingBatchSize (bstart bend : Int) (epochs : Nat) (epoch : Nat) : Int :=
if 1 < epochs then
  let bs := pyIntTrunc ((bstart : ℚ) + (epoch : ℚ) * ((bend : ℚ) - (bstart : ℚ)) / ((epochs : ℚ) - 1))
  if bs % 2 = 0 then bs else bs + 1
else bstart

/-! ### Negative sampling pools (`_create_batch_b` lines 674-689,
`_negs_from_batch` lines 691-711, and the dataset-path sampler at line 946) -/

/-- Source: the candidate list built inside `_create_batch_b` (the
`use_iou = False` branch, the one that can actually run since `self.iou`
is never assigned): `[i for i in range(num_intents) if i != intent_ids[b]]`. -/
def negativeIndexesA (numIntents : Nat) (intentId : Nat) : List Nat :=
(List.range numIntents).filter (fun i => i ≠ intentId)

/-- Source: the candidate list built inside `_negs_from_batch` (the
`use_iou = False` branch):
`[i for i in range(batch) if not np.array_equal(batch_pos_b[i], batch_pos_b[b])]`. -/
def negativeIndexesB (batchPosB : List (List ℚ)) (b : Nat) : List Nat :=
(List.range batchPosB.length).filter (fun i => batchPosB.get? i ≠ batchPosB.get? b)

/-- Source, line 946 of `train`:
`tf.random.categorical(tf.log(1. - tf.eye(batch)), 3)`.
Row `b` of the logit matrix is `log(1 - eye)[b]`, which is `-inf` at
column `b` and `log 1 = 0` elsewhere, so the sampled class for anchor `b`
has probability zero exactly on the diagonal.  This definition is that
sampler's support: the batch indices that can be drawn as negatives for
anchor `b`. -/
def negsIdsSupport (batchLen : Nat) (b : Nat) : List Nat :=
(List.range batchLen).filter (fun i => i ≠ b)

/-- Source: `np.random.choice(negative_indexes, size=num_neg)` — each draw
is an element of the pool; the draw positions are supplied by the caller
as an oracle list (`picks`), reduced modulo the pool size exactly as a
uniform random index generator would produce them. -/
def sampleFromPool (pool : List Nat) (picks : List Nat) : List Nat :=
picks.map (fun k => pool.getD (k % pool.length) 0)

/-! ### Configuration loading (`__init__` via `_load_params`, lines 131-255) -/

/-- The recognized configuration surface, with the classifier defaults of
lines 58-129 available as `defaultConfig` below. -/
structure ComponentConfig where
  hidden_layers_sizes_a : List Nat
  hidden_layers_sizes_b : List Nat
  share_embedding : Bool
  bidirectional : Bool
  fused_lstm : Bool
  gpu_lstm : Bool
  transformer : Bool
  pos_encoding : String
  similarity_type : String
  num_neg : Nat
  use_neg_from_batch : Bool
  use_max_sim_neg : Bool
  mu_pos : ℚ
  mu_neg : ℚ
  c_emb : ℚ
  intent_tokenization_flag : Bool
  intent_split_symbol : String
deriving DecidableEq

/-- The classifier `defaults` dictionary (lines 58-129), restricted to the
fields modelled here. -/
def defaultConfig : ComponentConfig :=
{ hidden_layers_sizes_a := [256, 128]
, hidden_layers_sizes_b := []
, share_embedding := false
, bidirectional := false
, fused_lstm := false
, gpu_lstm := false
, transformer := false
, pos_encoding := "timing"
, similarity_type := "cosine"
, num_neg := 20
, use_neg_from_batch := true
, use_max_sim_neg := true
, mu_pos := 8/10
, mu_neg := -(4/10)
, c_emb := 8/10
, intent_tokenization_flag := false
, intent_split_symbol := "_" }

/-- The architecture parameters stored by `_load_nn_architecture_params`. -/
structure NNParams where
  hidden_a : List Nat
  hidden_b : List Nat
  share_embedding : Bool
  bidirectional : Bool
  fused_lstm : Bool
  gpu_lstm : Bool
  transformer : Bool
  pos_encoding : String
deriving DecidableEq

/-- Source: `_load_nn_architecture_params` (lines 179-212).  Raises on a
shared-embedding size mismatch, then on more than one of the mutually
exclusive `gpu_lstm` / `fused_lstm` / `transformer` flags, then on
non-identical layer sizes under `gpu_lstm` or `transformer`; a
`pos_encoding` of `timing` is renamed to `custom_timing`. -/
def loadNNArchitectureParams (c : ComponentConfig) : Except String NNParams :=
if c.share_embedding ∧ c.hidden_layers_sizes_a ≠ c.hidden_layers_sizes_b then
  Except.error "If embeddings are shared hidden_layer_sizes must coincide"
else if (c.gpu_lstm ∧ c.fused_lstm) ∨ (c.transformer ∧ c.fused_lstm) ∨
    (c.gpu_lstm ∧ c.transformer) then
  Except.error "Either gpu_lstm or fused_lstm or transformer should be specified"
else if (c.gpu_lstm ∨ c.transformer) ∧
    c.hidden_layers_sizes_a.any (fun s => s ≠ c.hidden_layers_sizes_a.headD 0) then
  Except.error "GPU training only supports identical sizes among layers a"
else if (c.gpu_lstm ∨ c.transformer) ∧
    c.hidden_layers_sizes_b.any (fun s => s ≠ c.hidden_layers_sizes_b.headD 0) then
  Except.error "GPU training only supports identical sizes among layers b"
else
  Except.ok
    { hidden_a := c.hidden_layers_sizes_a
    , hidden_b := c.hidden_layers_sizes_b
    , share_embedding := c.share_embedding
    , bidirectional := c.bidirectional
    , fused_lstm := c.fused_lstm
    , gpu_lstm := c.gpu_lstm
    , transformer := c.transformer
    , pos_encoding := if c.pos_encoding = "timing" then "custom_timing" else c.pos_encoding }

/-- Everything `_load_params` stores on the instance that the claims use. -/
structure LoadedParams where
  nn : NNParams
  similarity_type : String
  num_neg : Nat
  use_max_sim_neg : Bool
  mu_pos : ℚ
  mu_neg : ℚ
  c_emb : ℚ
  intent_tokenization_flag : Bool
deriving DecidableEq

/-- Source: `_load_params` (lines 249-255), the whole of the validation
performed during component construction.  `_load_embedding_params`,
`_load_regularization_params` and `_load_visual_params` store their values
without raising; `_load_flag_if_tokenize_intents` only downgrades the
tokenization flag when the split symbol is empty.  In particular the
similarity type is stored verbatim and never checked here. -/
def loadParams (c : ComponentConfig) : Except String LoadedParams :=
match loadNNArchitectureParams c with
| Except.error msg => Except.error msg
| Except.ok nn =>
  Except.ok
    { nn := nn
    , similarity_type := c.similarity_type
    , num_neg := c.num_neg
    , use_max_sim_neg := c.use_max_sim_neg
    , mu_pos := c.mu_pos
    , mu_neg := c.mu_neg
    , c_emb := c.c_emb
    , intent_tokenization_flag :=
        c.intent_tokenization_flag && decide (c.intent_split_symbol ≠ "") }

/-! ### Similarity engine (`_tf_sim`, lines 606-630) -/

/-- Source: `tf.nn.l2_normalize(v, -1)` — each component divided by the
Euclidean norm of the vector (idealized real arithmetic; the float
implementation additionally guards a vanishing norm with a `1e-12`
epsilon, which is irrelevant for any vector the claims quantify over). -/
noncomputable def l2Normalize (v : List ℝ) : List ℝ :=
v.map (fun x => x / Real.sqrt ((v.map (fun y => y * y)).sum))

/-- Batched dot product of two equal-length vectors:
`tf.reduce_sum(a * b, -1)` on one row. -/
noncomputable def dotProduct (u v : List ℝ) : ℝ :=
(List.zipWith (fun x y => x * y) u v).sum

/-- Source: `_tf_sim(self, a, b)`.  `a` is the batch of message embeddings
(one vector per example), `b` the batch of candidate-intent embeddings
(per example: the true intent at position 0 followed by the negatives).
Under `cosine` both sides are L2-normalized first; under `cosine` or
`inner` the result is `(sim, sim_emb)` with
`sim[i][k] = dot(a[i], b[i][k])` and
`sim_emb[i][j] = dot(b[i][0], b[i][1+j])`; any other similarity type
raises `ValueError`. -/
noncomputable def tfSim (simType : String) (a : List (List ℝ)) (b : List (List (List ℝ))) :
    Except String (List (List ℝ) × List (List ℝ)) :=
let a2 := if simType = "cosine" then a.map l2Normalize else a
let b2 := if simType = "cosine" then b.map (fun bi => bi.map l2Normalize) else b
if simType = "cosine" ∨ simType = "inner" then
  Except.ok
    (List.zipWith (fun ai bi => bi.map (fun bik => dotProduct ai bik)) a2 b2,
     b2.map (fun bi =>
       match bi with
       | [] => []
       | b0 :: rest => rest.map (fun bij => dotProduct b0 bij)))
else Except.error "Wrong similarity type, should be cosine or inner"

/-- The validity test `_tf_sim` applies to the similarity type; the graph
construction inside `train` succeeds exactly when this holds. -/
def tfSimTypeOk (simType : String) : Bool :=
decide (simType = "cosine") || decide (simType = "inner")

/-! ### Loss (`_tf_loss`, lines 632-653) -/

/-- `tf.reduce_max` over the last axis of one row; the source only applies
it to nonempty rows (there is at least one negative candidate), so the
value returned on `[]` is immaterial. -/
def listMaxD : List ℚ → ℚ
| [] => 0
| x :: xs => xs.foldl max x

/-- Source: `_tf_loss(self, sim, sim_emb)`, mirrored column-operation by
column-operation: the positive-margin vector `max(0, mu_pos - sim[:, 0])`,
plus either the hardest-negative margin `max(0, mu_neg + max(sim[:, 1:]))`
or the summed margins over all negatives, plus
`max(0, max(sim_emb, -1)) * C_emb`, then `reduce_mean` over the batch plus
the regularization loss. -/
def tfLoss (useMaxSimNeg : Bool) (muPos muNeg cEmb regLoss : ℚ)
    (sim simEmb : List (List ℚ)) : ℚ :=
let loss1 := sim.map (fun row => max 0 (muPos - row.headD 0))
let negTerm :=
  if useMaxSimNeg then sim.map (fun row => max 0 (muNeg + listMaxD row.tail))
  else sim.map (fun row => (row.tail.map (fun s => max 0 (muNeg + s))).sum)
let loss2 := List.zipWith (fun x y => x + y) loss1 negTerm
let embTerm := simEmb.map (fun row => max 0 (listMaxD row) * cEmb)
let loss3 := List.zipWith (fun x y => x + y) loss2 embTerm
loss3.sum / (loss3.length : ℚ) + regLoss

/-- The loss exactly as the specification states it: a single per-example
expression — `max(0, mu_pos − sim[i][0])` plus the configured
negative-similarity term plus `C_emb * max(0, max_j sim_among_b[i][j])` —
averaged over the batch and added to the regularization loss. -/
def specLoss (useMaxSimNeg : Bool) (muPos muNeg cEmb regLoss : ℚ)
    (sim simEmb : List (List ℚ)) : ℚ :=
let rows := List.zipWith (fun simRow embRow =>
  max 0 (muPos - simRow.headD 0) +
  (if useMaxSimNeg then max 0 (muNeg + listMaxD simRow.tail)
   else (simRow.tail.map (fun s => max 0 (muNeg + s))).sum) +
  cEmb * max 0 (listMaxD embRow)) sim simEmb
rows.sum / (rows.length : ℚ) + regLoss

/-! ### Training data helpers and the `train` state machine
(lines 270-341 and 866-986) -/

/-- One training example as the classifier consumes it: an intent label
and the pre-extracted message feature vector. -/
structure TrainingExample where
  intent : String
  text_features : List ℚ
deriving DecidableEq, Inhabited

/-- The training-derived instance state of the classifier.  `sessionObj`
stands for `self.session` (`none` = untrained), `simAllBuilt` for whether
the `sim_all` inference op was ever constructed. -/
structure ClassifierState where
  num_neg : Nat
  inv_intent_dict : Option (List (Nat × String))
  encoded_all_intents : Option (List (List ℚ))
  all_intents_embed_values : Option (List (List ℚ))
  sessionObj : Option Unit
  simAllBuilt : Bool
deriving DecidableEq

/-- The state of a freshly constructed classifier (lines 131-176): all
training-derived fields are `None`. -/
def initialState (numNeg : Nat) : ClassifierState :=
{ num_neg := numNeg
, inv_intent_dict := none
, encoded_all_intents := none
, all_intents_embed_values := none
, sessionObj := none
, simAllBuilt := false }

/-- Lexicographic code-point comparison of character lists: the order in
which Python `sorted` arranges intent labels. -/
def charListLe : List Char → List Char → Bool
| [], _ => true
| _ :: _, [] => false
| c :: cs, d :: ds =>
  if c.toNat < d.toNat then true
  else if d.toNat < c.toNat then false
  else charListLe cs ds

/-- Python string comparison `s <= t`. -/
def strLe (s t : String) : Bool := charListLe s.data t.data

/-- Source: `_create_intent_dict` (lines 271-278): the distinct intent
labels, sorted, each paired with its position. -/
def createIntentDict (intents : List String) : List (String × Nat) :=
((intents.dedup).insertionSort (fun s t => strLe s t = true)).enum.map (fun p => (p.2, p.1))

/-- `np.eye(n)` as a list of rows. -/
def identityRows (n : Nat) : List (List ℚ) :=
(List.range n).map (fun i => (List.range n).map (fun j => if j = i then (1 : ℚ) else 0))

/-- Source: `_find_example_for_intent` (lines 280-284). -/
def findExampleForIntent (intent : String) (examples : List TrainingExample) :
    Option TrainingExample :=
examples.find? (fun ex => ex.intent = intent)

/-- Source: `_create_encoded_intents` (lines 286-308).  With intent
tokenization on, one (intent-feature) row per intent in dictionary order;
otherwise the identity matrix.  The tokenized rows would be the
`intent_features` of a representative example; only the row count matters
to the claims, so the feature payload of the tokenized branch is the
message features of the found example's record. -/
def createEncodedIntents (tokenize : Bool) (intentDict : List (String × Nat))
    (examples : List TrainingExample) : List (List ℚ) :=
if tokenize then
  intentDict.map (fun p => ((findExampleForIntent p.1 examples).map
    (fun ex => ex.text_features)).getD [])
else identityRows intentDict.length

/-- How one call of `train` (lines 866-986) ends.  `skipped`: the
fewer-than-two-intents early return of lines 873-877.  `raisedError`: a
`ValueError` from the shared-embedding dimension check (lines 888-892) or
from `_tf_sim` during graph construction (lines 963-964), or an exception
out of the epoch loop.  `processExit`: the unconditional `exit()` call at
line 980, reached whenever `_train_tf_dataset` returns.  There is no
normal-return outcome for the trained path, because line 980 executes
before `train` can fall back to its caller, and the statements after it —
`_create_all_intents_embed` (line 981) and the `sim_all` op
(lines 983-986) — are unreachable. -/
inductive TrainResult
| skipped
| raisedError (msg : String)
| processExit
deriving DecidableEq

/-- Source: `train` (lines 866-986), as a transition on the classifier
state.  `epochLoopFails` is the environment's choice of whether
`_train_tf_dataset` raises (and with what message) or runs its epochs to
completion.  The graph-construction steps that cannot raise are folded
into the state updates they produce. -/
def train (cfg : ComponentConfig) (st : ClassifierState) (data : List TrainingExample)
    (epochLoopFails : Option String) : ClassifierState × TrainResult :=
let intentDict := createIntentDict (data.map (fun e => e.intent))
if intentDict.length < 2 then (st, TrainResult.skipped)
else
  let encoded := createEncodedIntents
    (cfg.intent_tokenization_flag && decide (cfg.intent_split_symbol ≠ ""))
    intentDict data
  let st1 : ClassifierState :=
    { st with
      inv_intent_dict := some (intentDict.map (fun p => (p.2, p.1)))
      encoded_all_intents := some encoded }
  let xDim := (data.headD default).text_features.length
  let yDim := (encoded.headD []).length
  if cfg.share_embedding ∧ xDim ≠ yDim then
    (st1, TrainResult.raisedError
      "If embeddings are shared text features and intent features must coincide")
  else
    let st2 := { st1 with num_neg := min st1.num_neg (encoded.length - 1) }
    if tfSimTypeOk cfg.similarity_type = false then
      (st2, TrainResult.raisedError "Wrong similarity type, should be cosine or inner")
    else
      let st3 := { st2 with sessionObj := some () }
      match epochLoopFails with
      | some msg => (st3, TrainResult.raisedError msg)
      | none => (st3, TrainResult.processExit)

/-! ### Persistence (`persist`, lines 1175-1243) -/

/-- `self.name` of the component (line 52). -/
def classifierName : String := "intent_classifier_tensorflow_embedding"

/-- What one `persist` call produces: the artifact paths written under the
model directory and the returned `classifier_file` reference. -/
structure PersistResult where
  files : List String
  classifier_file : Option String
deriving DecidableEq

/-- Source: `persist(self, model_dir)`.  An untrained classifier
(`self.session is None`) writes nothing and returns a null reference;
otherwise the weight checkpoint and the four auxiliary pickles —
placeholder dimensions, inverse intent dictionary, encoded-intent table
and precomputed all-intents embedding table — are written, and the
checkpoint name is returned. -/
def persist (st : ClassifierState) (modelDir : String) : PersistResult :=
if st.sessionObj = none then { files := [], classifier_file := none }
else
  { files :=
      [ modelDir ++ "/" ++ classifierName ++ ".ckpt"
      , modelDir ++ "/" ++ classifierName ++ "_placeholder_dims.pkl"
      , modelDir ++ "/" ++ classifierName ++ "_inv_intent_dict.pkl"
      , modelDir ++ "/" ++ classifierName ++ "_encoded_all_intents.pkl"
      , modelDir ++ "/" ++ classifierName ++ "_all_intents_embed_values.pkl" ]
  , classifier_file := some (classifierName ++ ".ckpt") }

/-! ### Inference ranking (`_calculate_message_sim_all` lines 1106-1130,
`process` lines 1133-1173) -/

/-- Modelled from the spec: the constant `INTENT_RANKING_LENGTH` is
imported from the `rasa_nlu.classifiers` package, which is not under the
examined source tree; the ranking is truncated to this many entries
(value 10 in the released package — the claims depend only on the
truncation happening at this constant). -/
def INTENT_RANKING_LENGTH : Nat := 10

/-- Similarities ranked best-first: the pair sorting performed by
`message_sim.argsort()[::-1]` together with `message_sim[::-1].sort()` —
index/value pairs in non-increasing order of value. -/
def rankDesc (p q : Nat × ℝ) : Prop := q.2 ≤ p.2

noncomputable instance : DecidableRel rankDesc :=
fun p q => Real.decidableLE q.2 p.2

instance : IsTotal (Nat × ℝ) rankDesc :=
⟨fun p q => le_total q.2 p.2⟩

instance : IsTrans (Nat × ℝ) rankDesc :=
⟨fun _ _ _ h1 h2 => le_trans h2 h1⟩

/-- The descending argsort of the flattened similarity vector. -/
noncomputable def argsortDescending (sims : List ℝ) : List (Nat × ℝ) :=
(sims.enum).insertionSort rankDesc

/-- Source: `_calculate_message_sim_all`, acting on the flattened
similarity vector the session run produced.  After the descending sort,
cosine mode clips negative values to zero and inner mode replaces each
value by its softmax weight `exp(v) / sum(exp(sims))`. -/
noncomputable def calculateMessageSimAll (simType : String) (sims : List ℝ) :
    List (Nat × ℝ) :=
let sorted := argsortDescending sims
if simType = "cosine" then
  sorted.map (fun p => (p.1, max p.2 0))
else if simType = "inner" then
  let s := (sims.map Real.exp).sum
  sorted.map (fun p => (p.1, Real.exp p.2 / s))
else sorted

/-- `self.inv_intent_dict[i]`, as an association-list lookup. -/
def lookupIntent (inv : List (Nat × String)) (i : Nat) : Option String :=
inv.lookup i

/-- Source: `process(self, message)`.  `sessionPresent` is whether
`self.session` exists, `sims` the flattened similarity vector obtained
from the `sim_all` op for this message, `X` the message feature vector.
Without a session, or with an all-zero feature vector, or with an empty
similarity vector, the null intent and an empty ranking are produced;
otherwise the top-ranked candidate becomes the intent and the ranking is
the first `INTENT_RANKING_LENGTH` candidates. -/
noncomputable def process (sessionPresent : Bool) (simType : String)
    (inv : List (Nat × String)) (sims : List ℝ) (X : List ℚ) :
    (Option String × ℝ) × List (Option String × ℝ) :=
if sessionPresent = false then ((none, 0), [])
else
  match calculateMessageSimAll simType sims with
  | [] => ((none, 0), [])
  | top :: rest =>
    if X.any (fun x => decide (x ≠ 0)) then
      ((lookupIntent inv top.1, top.2),
       ((top :: rest).take INTENT_RANKING_LENGTH).map
         (fun p => (lookupIntent inv p.1, p.2)))
    else ((none, 0), [])

/-! ### Concrete data used by the counterexamples and witnesses -/

/-- A minimal two-intent training set. -/
def exampleData : List TrainingExample :=
[ { intent := "bye", text_features := [1, 0] }
, { intent := "greet", text_features := [0, 1] } ]

/-- A single-intent training set. -/
def oneIntentData : List TrainingExample :=
[ { intent := "greet", text_features := [1, 0] }
, { intent := "greet", text_features := [0, 1] } ]

/-- A batch of three positive intent rows in which examples 0 and 1 carry
the same intent and example 2 a different one. -/
def batchRows : List (List ℚ) := [[1, 0], [1, 0], [0, 1]]

/-- A configuration selecting two of the mutually exclusive architecture
flags at once. -/
def conflictConfig : ComponentConfig :=
{ defaultConfig with gpu_lstm := true, fused_lstm := true }

/-- A configuration enabling embedding sharing with different
hidden-layer size lists for the two sides. -/
def mismatchConfig : ComponentConfig :=
{ defaultConfig with share_embedding := true }

/-! ## Helper lemmas -/

theorem pyIntTrunc_intCast (n : Int) : pyIntTrunc (n : ℚ) = n := by
  unfold pyIntTrunc
  rw [← Int.cast_neg, Int.floor_intCast, Int.floor_intCast]
  split <;> omega

theorem roundUpEven_emod (b : Int) : (if b % 2 = 0 then b else b + 1) % 2 = 0 := by
  split <;> omega

theorem createIntentDict_length (l : List String) :
    (createIntentDict l).length = l.dedup.length := by
  unfold createIntentDict
  rw [List.length_map, List.enum_length, List.length_insertionSort]

theorem linearlyIncreasingBatchSize_eval (bstart bend : Int) (epochs epoch : Nat)
    (h : 1 < epochs) (v : Int)
    (hv : (bstart : ℚ) + (epoch : ℚ) * ((bend : ℚ) - (bstart : ℚ)) / ((epochs : ℚ) - 1)
      = (v : ℚ)) :
    linearlyIncreasingBatchSize bstart bend epochs epoch =
      (if v % 2 = 0 then v else v + 1) := by
  simp only [linearlyIncreasingBatchSize, if_pos h, hv, pyIntTrunc_intCast]

theorem createEncodedIntents_length (tok : Bool) (d : List (String × Nat))
    (ex : List TrainingExample) : (createEncodedIntents tok d ex).length = d.length := by
  unfold createEncodedIntents identityRows
  split <;> simp

theorem loadParams_isOk (c : ComponentConfig) :
    (loadParams c).isOk = (loadNNArchitectureParams c).isOk := by
  unfold loadParams
  cases loadNNArchitectureParams c <;> rfl

/-! ## C1 — training terminates the process instead of completing -/

/-- **C1** (code_bug evidence): on a two-intent training set with the
default configuration and an epoch loop that runs to completion, `train`
reaches the unconditional `exit()` of line 980 (`TrainResult.processExit`)
instead of returning normally: the all-intents embedding table is never
computed (`all_intents_embed_values` stays `none`) and the `sim_all`
inference op is never built, even though the epoch loop, and every state
update before it, completed. -/
theorem C1_train_exit_before_completion :
    train defaultConfig (initialState 20) exampleData none =
      ({ num_neg := 1
       , inv_intent_dict := some [(0, "bye"), (1, "greet")]
       , encoded_all_intents := some [[1, 0], [0, 1]]
       , all_intents_embed_values := none
       , sessionObj := some ()
       , simAllBuilt := false }, TrainResult.processExit) := by decide

/-! ## C2 — negative sampling exclusions -/

/-- **C2** (counterexample): the negative sampler of the active training
path (`tf.random.categorical` over `log(1 - eye)`, line 946) excludes only
the anchor's own batch index.  In the batch `batchRows`, whose examples 0
and 1 carry the same intent, index 1 is in the sampler's support for
anchor 0 although its positive row is identical to the anchor's positive
row — and the eligible pool of genuinely different rows is not empty
(`_negs_from_batch` would have produced exactly `[2]`).  So a selected
batch row can be identical to the anchor's positive intent row, contrary
to the claim. -/
theorem C2_counterexample :
    1 ∈ negsIdsSupport batchRows.length 0 ∧
    batchRows.get? 1 = batchRows.get? 0 ∧
    negativeIndexesB batchRows 0 = [2] := by decide

/-- **C2** (amended): under table-based sampling (`_create_batch_b`) the
candidate pool, hence every sampled index, excludes the example's own
intent id, and the pool is nonempty whenever at least two intents exist;
`_negs_from_batch` never selects a batch row identical to the anchor's
positive; but the sampler of the active dataset training path excludes
only the anchor's own batch index, so it never selects the anchor itself
yet may select a duplicate row.  Every draw of `np.random.choice` is an
element of its pool. -/
theorem C2_negative_sampling_exclusions :
    (∀ n id j, j ∈ negativeIndexesA n id → j ≠ id) ∧
    (∀ n id, 2 ≤ n → id < n → negativeIndexesA n id ≠ []) ∧
    (∀ rows b i, i ∈ negativeIndexesB rows b → rows.get? i ≠ rows.get? b) ∧
    (∀ len b j, j ∈ negsIdsSupport len b → j ≠ b) ∧
    (∀ pool picks x, pool ≠ [] → x ∈ sampleFromPool pool picks → x ∈ pool) := by
  refine ⟨?_, ?_, ?_, ?_, ?_⟩
  · intro n id j hj
    simp only [negativeIndexesA, List.mem_filter, List.mem_range, decide_eq_true_eq] at hj
    exact hj.2
  · intro n id h2 hid
    rcases Nat.eq_zero_or_pos id with h0 | h0
    · refine List.ne_nil_of_mem (a := 1) ?_
      simp only [negativeIndexesA, List.mem_filter, List.mem_range, decide_eq_true_eq]
      omega
    · refine List.ne_nil_of_mem (a := 0) ?_
      simp only [negativeIndexesA, List.mem_filter, List.mem_range, decide_eq_true_eq]
      omega
  · intro rows b i hi
    simp only [negativeIndexesB, List.mem_filter, List.mem_range, decide_eq_true_eq] at hi
    exact hi.2
  · intro len b j hj
    simp only [negsIdsSupport, List.mem_filter, List.mem_range, decide_eq_true_eq] at hj
    exact hj.2
  · intro pool picks x hpool hx
    obtain ⟨k, hk, hkx⟩ := List.mem_map.mp hx
    have hlen : 0 < pool.length := List.length_pos.mpr hpool
    have hlt : k % pool.length < pool.length := Nat.mod_lt _ hlen
    rw [← hkx, List.getD_eq_getElem pool 0 hlt]
    exact List.getElem_mem hlt

/-- **C2** (witness): concrete instances of each conjunct of the amended
claim, obtained by applying it. -/
theorem C2_negative_sampling_witness :
    (1 : Nat) ≠ 0 ∧
    negativeIndexesA 3 0 ≠ [] ∧
    batchRows.get? 2 ≠ batchRows.get? 0 ∧
    (2 : Nat) ≠ 0 ∧
    (1 : Nat) ∈ [1, 2] :=
  ⟨C2_negative_sampling_exclusions.1 3 0 1 (by decide),
   C2_negative_sampling_exclusions.2.1 3 0 (by decide) (by decide),
   C2_negative_sampling_exclusions.2.2.1 batchRows 0 2 (by decide),
   C2_negative_sampling_exclusions.2.2.2.1 3 0 2 (by decide),
   C2_negative_sampling_exclusions.2.2.2.2 [1, 2] [0] 1 (by decide) (by decide)⟩

/-! ## C3 — batch-size schedule -/

/-- **C3** (counterexample): with `batch_size = [63, 257]` and
`epochs = 2`, epoch 0 yields 64, not the configured start value 63, and
the final epoch yields 258, not the configured end value 257 (both are
rounded up to even); and with `batch_size = [64, 256]` and a single
epoch, the returned size is the *start* value 64, not the end value the
claim names. -/
theorem C3_counterexample :
    linearlyIncreasingBatchSize 63 257 2 0 = 64 ∧
    linearlyIncreasingBatchSize 63 257 2 1 = 258 ∧
    linearlyIncreasingBatchSize 64 256 1 0 = 64 := by
  refine ⟨?_, ?_, ?_⟩
  · rw [linearlyIncreasingBatchSize_eval 63 257 2 0 (by omega) 63 (by norm_num)]
    decide
  · rw [linearlyIncreasingBatchSize_eval 63 257 2 1 (by omega) 257 (by norm_num)]
    decide
  · simp only [linearlyIncreasingBatchSize]
    rw [if_neg (by omega)]

/-- **C3** (amended): for a multi-epoch run the batch size at epoch 0 is
the configured start value rounded up to an even number, at the final
epoch the configured end value rounded up to an even number, and every
epoch's value is even; in the single-epoch case the start value is
returned exactly (not the end value). -/
theorem C3_batch_size_schedule (bstart bend : Int) (epochs epoch : Nat)
    (h : 1 < epochs) :
    linearlyIncreasingBatchSize bstart bend epochs 0 =
      (if bstart % 2 = 0 then bstart else bstart + 1) ∧
    linearlyIncreasingBatchSize bstart bend epochs (epochs - 1) =
      (if bend % 2 = 0 then bend else bend + 1) ∧
    linearlyIncreasingBatchSize bstart bend epochs epoch % 2 = 0 ∧
    linearlyIncreasingBatchSize bstart bend 1 epoch = bstart := by
  have hq : ((epochs : ℚ) - 1) ≠ 0 := by
    have h1 : (1 : ℚ) < (epochs : ℚ) := by exact_mod_cast h
    linarith
  refine ⟨?_, ?_, ?_, ?_⟩
  · rw [linearlyIncreasingBatchSize_eval bstart bend epochs 0 h bstart (by push_cast; ring)]
  · refine linearlyIncreasingBatchSize_eval bstart bend epochs (epochs - 1) h bend ?_
    have hcast : (((epochs - 1 : ℕ)) : ℚ) = (epochs : ℚ) - 1 := by
      have h1 : (1 : ℕ) ≤ epochs := le_of_lt h
      push_cast [h1]
      ring
    rw [hcast, mul_div_cancel_left₀ _ hq]
    ring
  · simp only [linearlyIncreasingBatchSize, if_pos h]
    exact roundUpEven_emod _
  · simp only [linearlyIncreasingBatchSize]
    rw [if_neg (by omega)]

/-- **C3** (witness): the amended claim applied at
`batch_size = [64, 256]`, `epochs = 2`, `epoch = 1`. -/
theorem C3_batch_size_witness :
    linearlyIncreasingBatchSize 64 256 2 0 =
      (if (64 : Int) % 2 = 0 then 64 else 64 + 1) ∧
    linearlyIncreasingBatchSize 64 256 2 (2 - 1) =
      (if (256 : Int) % 2 = 0 then 256 else 256 + 1) ∧
    linearlyIncreasingBatchSize 64 256 2 1 % 2 = 0 ∧
    linearlyIncreasingBatchSize 64 256 1 1 = 64 :=
  C3_batch_size_schedule 64 256 2 1 (by omega)

/-! ## C8 — persistence artifacts -/

/-- **C8**: `persist` returns a null classifier-file reference and writes
nothing when the model was never trained; otherwise it writes exactly the
weight checkpoint, the placeholder dimensions, the inverse intent
dictionary, the encoded-intent table and the precomputed all-intents
embedding table, and returns a non-null reference naming the
checkpoint. -/
theorem C8_persist_artifacts (st : ClassifierState) (dir : String) :
    (st.sessionObj = none →
      persist st dir = { files := [], classifier_file := none }) ∧
    (st.sessionObj ≠ none →
      persist st dir =
        { files :=
            [ dir ++ "/" ++ classifierName ++ ".ckpt"
            , dir ++ "/" ++ classifierName ++ "_placeholder_dims.pkl"
            , dir ++ "/" ++ classifierName ++ "_inv_intent_dict.pkl"
            , dir ++ "/" ++ classifierName ++ "_encoded_all_intents.pkl"
            , dir ++ "/" ++ classifierName ++ "_all_intents_embed_values.pkl" ]
        , classifier_file := some (classifierName ++ ".ckpt") }) := by
  constructor <;> intro h <;> simp [persist, h]

/-- **C8** (witness): both branches applied to concrete states. -/
theorem C8_persist_witness :
    persist (initialState 20) "model" = { files := [], classifier_file := none } ∧
    persist { initialState 20 with sessionObj := some () } "model" =
      { files :=
          [ "model" ++ "/" ++ classifierName ++ ".ckpt"
          , "model" ++ "/" ++ classifierName ++ "_placeholder_dims.pkl"
          , "model" ++ "/" ++ classifierName ++ "_inv_intent_dict.pkl"
          , "model" ++ "/" ++ classifierName ++ "_encoded_all_intents.pkl"
          , "model" ++ "/" ++ classifierName ++ "_all_intents_embed_values.pkl" ]
      , classifier_file := some (classifierName ++ ".ckpt") } :=
  ⟨(C8_persist_artifacts (initialState 20) "model").1 rfl,
   (C8_persist_artifacts { initialState 20 with sessionObj := some () } "model").2
     (by simp [initialState])⟩

/-! ## C5, C6 — the train early-return and the num_neg clamp -/

theorem train_result_num_neg (cfg : ComponentConfig) (st : ClassifierState)
    (data : List TrainingExample) (lr : Option String)
    (hshare : cfg.share_embedding = false)
    (h2 : 2 ≤ (data.map (fun e => e.intent)).dedup.length) :
    (train cfg st data lr).1.num_neg =
      min st.num_neg ((data.map (fun e => e.intent)).dedup.length - 1) := by
  have hlen := createIntentDict_length (data.map (fun e => e.intent))
  have henc := createEncodedIntents_length
    (cfg.intent_tokenization_flag && decide (cfg.intent_split_symbol ≠ ""))
    (createIntentDict (data.map (fun e => e.intent))) data
  simp only [train]
  rw [if_neg (by omega)]
  rw [if_neg (by simp [hshare])]
  split
  · simp only [henc, hlen]
  · cases lr <;> simp only [henc, hlen]

/-- **C6**: after the clamp at training start, `num_neg` is at most the
number of distinct intents minus one, and keeps its configured value
whenever that value already satisfies the bound. -/
theorem C6_num_neg_clamp (cfg : ComponentConfig) (st : ClassifierState)
    (data : List TrainingExample) (lr : Option String)
    (hshare : cfg.share_embedding = false)
    (h2 : 2 ≤ (data.map (fun e => e.intent)).dedup.length) :
    (train cfg st data lr).1.num_neg ≤ (data.map (fun e => e.intent)).dedup.length - 1 ∧
    (st.num_neg ≤ (data.map (fun e => e.intent)).dedup.length - 1 →
      (train cfg st data lr).1.num_neg = st.num_neg) := by
  rw [train_result_num_neg cfg st data lr hshare h2]
  exact ⟨Nat.min_le_right _ _, fun h => min_eq_left h⟩

/-- **C6** (witness): the clamp evaluated on the two-intent data set, once
with a configured value above the bound and once at the bound. -/
theorem C6_num_neg_clamp_witness :
    (train defaultConfig (initialState 1) exampleData none).1.num_neg ≤
      (exampleData.map (fun e => e.intent)).dedup.length - 1 ∧
    (train defaultConfig (initialState 1) exampleData none).1.num_neg = 1 :=
  ⟨(C6_num_neg_clamp defaultConfig (initialState 1) exampleData none rfl (by decide)).1,
   (C6_num_neg_clamp defaultConfig (initialState 1) exampleData none rfl (by decide)).2
     (by decide)⟩

/-- **C5**: with fewer than two distinct intents, `train` logs and returns
with the classifier state unchanged (no graph, no session), and a
subsequent `process` call — whose session flag is taken from the returned
state — produces the null intent `(none, 0.0)` and an empty ranking. -/
theorem C5_insufficient_intents (cfg : ComponentConfig) (st : ClassifierState)
    (data : List TrainingExample) (lr : Option String)
    (hsess : st.sessionObj = none)
    (h : (data.map (fun e => e.intent)).dedup.length < 2) :
    train cfg st data lr = (st, TrainResult.skipped) ∧
    ∀ inv sims X,
      process (decide ((train cfg st data lr).1.sessionObj ≠ none))
          cfg.similarity_type inv sims X = ((none, 0), []) := by
  have hlen := createIntentDict_length (data.map (fun e => e.intent))
  have htrain : train cfg st data lr = (st, TrainResult.skipped) := by
    simp only [train]
    rw [if_pos (by omega)]
  refine ⟨htrain, ?_⟩
  intro inv sims X
  rw [htrain]
  simp [hsess, process]

/-- **C5** (witness): the single-intent training set, followed by a
process call on the untouched state. -/
theorem C5_insufficient_intents_witness :
    train defaultConfig (initialState 20) oneIntentData none =
      (initialState 20, TrainResult.skipped) ∧
    process (decide ((train defaultConfig (initialState 20) oneIntentData none).1.sessionObj ≠ none))
        defaultConfig.similarity_type [] [] [] = ((none, 0), []) :=
  ⟨(C5_insufficient_intents defaultConfig (initialState 20) oneIntentData none rfl (by decide)).1,
   (C5_insufficient_intents defaultConfig (initialState 20) oneIntentData none rfl (by decide)).2
     [] [] []⟩

/-! ## C7 — which configuration errors are raised at construction -/

theorem loadNN_isOk_false_of_flag_conflict (c : ComponentConfig)
    (h : (c.gpu_lstm ∧ c.fused_lstm) ∨ (c.transformer ∧ c.fused_lstm) ∨
      (c.gpu_lstm ∧ c.transformer)) :
    (loadNNArchitectureParams c).isOk = false := by
  unfold loadNNArchitectureParams
  split <;> rfl

theorem loadNN_isOk_false_of_share_mismatch (c : ComponentConfig)
    (h : c.share_embedding ∧ c.hidden_layers_sizes_a ≠ c.hidden_layers_sizes_b) :
    (loadNNArchitectureParams c).isOk = false := by
  unfold loadNNArchitectureParams
  split <;> rfl

/-- **C7** (counterexample): an unsupported similarity mode is *not*
raised at component construction — `loadParams` succeeds on a
configuration whose similarity type is `foo` — even though `foo` is a
fatal error for the similarity engine, as `_tf_sim` shows. -/
theorem C7_counterexample :
    (loadParams { defaultConfig with similarity_type := "foo" }).isOk = true ∧
    tfSim "foo" [] [] =
      Except.error "Wrong similarity type, should be cosine or inner" := by
  constructor
  · decide
  · rfl

/-- **C7** (amended): conflicting architecture flags and mismatched
shared-embedding size lists are raised at component construction; an
unsupported similarity mode is raised later, when `_tf_sim` builds the
similarity op during the training call's graph construction — before any
training step runs and before a session is created. -/
theorem C7_fatal_configuration_errors (c : ComponentConfig) :
    ((c.gpu_lstm ∧ c.fused_lstm) ∨ (c.transformer ∧ c.fused_lstm) ∨
        (c.gpu_lstm ∧ c.transformer) →
      (loadParams c).isOk = false) ∧
    (c.share_embedding ∧ c.hidden_layers_sizes_a ≠ c.hidden_layers_sizes_b →
      (loadParams c).isOk = false) ∧
    (∀ (simType : String) (a : List (List ℝ)) (b : List (List (List ℝ))),
      tfSimTypeOk simType = false → (tfSim simType a b).isOk = false) ∧
    (∀ st data lr, tfSimTypeOk c.similarity_type = false →
      c.share_embedding = false →
      2 ≤ (data.map (fun e : TrainingExample => e.intent)).dedup.length →
      (train c st data lr).2 =
        TrainResult.raisedError "Wrong similarity type, should be cosine or inner" ∧
      (train c st data lr).1.sessionObj = st.sessionObj) := by
  refine ⟨?_, ?_, ?_, ?_⟩
  · intro h
    rw [loadParams_isOk]
    exact loadNN_isOk_false_of_flag_conflict c h
  · intro h
    rw [loadParams_isOk]
    exact loadNN_isOk_false_of_share_mismatch c h
  · intro simType a b h
    simp only [tfSimTypeOk, Bool.or_eq_false_iff, decide_eq_false_iff_not] at h
    unfold tfSim
    rw [if_neg (not_or.mpr h)]
    rfl
  · intro st data lr hbad hshare h2
    have hlen := createIntentDict_length (data.map (fun e : TrainingExample => e.intent))
    simp only [train]
    rw [if_neg (by omega)]
    rw [if_neg (by simp [hshare])]
    rw [if_pos hbad]
    exact ⟨rfl, rfl⟩

/-- **C7** (witness): the flag conflict and the shared-size mismatch fail
at construction; the bad similarity mode passes construction but fails in
the similarity engine and aborts the training call. -/
theorem C7_fatal_configuration_witness :
    (loadParams conflictConfig).isOk = false ∧
    (loadParams mismatchConfig).isOk = false ∧
    (tfSim "foo" [] []).isOk = false ∧
    (train { defaultConfig with similarity_type := "foo" }
        (initialState 20) exampleData none).2 =
      TrainResult.raisedError "Wrong similarity type, should be cosine or inner" :=
  ⟨(C7_fatal_configuration_errors conflictConfig).1 (by decide),
   (C7_fatal_configuration_errors mismatchConfig).2.1 (by decide),
   (C7_fatal_configuration_errors defaultConfig).2.2.1 "foo" [] [] (by decide),
   ((C7_fatal_configuration_errors { defaultConfig with similarity_type := "foo" }).2.2.2
     (initialState 20) exampleData none (by decide) rfl (by decide)).1⟩

/-! ## C4 — the loss formula -/

theorem lossVector_eq (useMax : Bool) (muPos muNeg cEmb : ℚ) :
    ∀ (sim simEmb : List (List ℚ)),
    List.zipWith (fun x y => x + y)
      (List.zipWith (fun x y => x + y)
        (sim.map (fun row => max 0 (muPos - row.headD 0)))
        (if useMax then sim.map (fun row => max 0 (muNeg + listMaxD row.tail))
         else sim.map (fun row => (row.tail.map (fun s => max 0 (muNeg + s))).sum)))
      (simEmb.map (fun row => max 0 (listMaxD row) * cEmb)) =
    List.zipWith (fun simRow embRow =>
      max 0 (muPos - simRow.headD 0) +
      (if useMax then max 0 (muNeg + listMaxD simRow.tail)
       else (simRow.tail.map (fun s => max 0 (muNeg + s))).sum) +
      cEmb * max 0 (listMaxD embRow)) sim simEmb := by
  intro sim
  induction sim with
  | nil =>
    intro simEmb
    cases useMax <;> rfl
  | cons r rs ih =>
    intro simEmb
    cases simEmb with
    | nil => cases useMax <;> rfl
    | cons e es =>
      cases useMax
      all_goals
        simp only [List.map_cons, List.zipWith_cons_cons, List.cons.injEq,
          Bool.false_eq_true, if_false, if_true]
        refine ⟨by ring, ?_⟩
        exact ih es

/-- **C4**: the training loss equals the specification's formula —
`max(0, mu_pos − sim[:,0])` plus, by configuration, either
`max(0, mu_neg + max_k sim[:,k>0])` or the summed margin over all
negatives, plus `C_emb * max(0, max_j sim_among_b[:,j])`, averaged over
the batch and added to the regularization loss. -/
theorem C4_loss_formula (useMax : Bool) (muPos muNeg cEmb regLoss : ℚ)
    (sim simEmb : List (List ℚ)) :
    tfLoss useMax muPos muNeg cEmb regLoss sim simEmb =
      specLoss useMax muPos muNeg cEmb regLoss sim simEmb := by
  simp only [tfLoss, specLoss]
  rw [lossVector_eq useMax muPos muNeg cEmb sim simEmb]

/-! ## C9 — cosine self-similarity -/

theorem sumSq_nonneg_terms (v : List ℝ) : ∀ x ∈ v.map (fun y => y * y), 0 ≤ x := by
  intro x hx
  obtain ⟨y, _, rfl⟩ := List.mem_map.mp hx
  exact mul_self_nonneg y

theorem sumSq_pos (v : List ℝ) (h : ∃ x ∈ v, x ≠ 0) :
    0 < (v.map (fun y => y * y)).sum := by
  obtain ⟨x, hx, hx0⟩ := h
  have hle : x * x ≤ (v.map (fun y => y * y)).sum :=
    List.single_le_sum (sumSq_nonneg_terms v) _ (List.mem_map.mpr ⟨x, hx, rfl⟩)
  exact lt_of_lt_of_le (mul_self_pos.mpr hx0) hle

theorem dotProduct_l2Normalize_self (e : List ℝ) (h : ∃ x ∈ e, x ≠ 0) :
    dotProduct (l2Normalize e) (l2Normalize e) = 1 := by
  have hs : 0 < (e.map (fun y => y * y)).sum := sumSq_pos e h
  unfold dotProduct l2Normalize
  rw [List.zipWith_same, List.map_map]
  have hfun : ((fun x : ℝ => x * x) ∘
      (fun x : ℝ => x / Real.sqrt ((e.map (fun y => y * y)).sum)))
      = fun x : ℝ => (x * x) * ((e.map (fun y => y * y)).sum)⁻¹ := by
    funext x
    simp only [Function.comp]
    rw [div_mul_div_comm, Real.mul_self_sqrt (le_of_lt hs), div_eq_mul_inv]
  rw [hfun, List.sum_map_mul_right, mul_inv_cancel₀ (ne_of_gt hs)]

/-- **C9**: under cosine mode, the similarity of a nonzero embedding with
itself is exactly 1: `_tf_sim` normalizes both sides before the dot
product, so feeding the same vector as the message embedding and as its
own (only) candidate yields similarity matrix `[[1]]`. -/
theorem C9_cosine_self_similarity (e : List ℝ) (h : ∃ x ∈ e, x ≠ 0) :
    tfSim "cosine" [e] [[e]] = Except.ok ([[1]], [[]]) := by
  have hd := dotProduct_l2Normalize_self e h
  simp [tfSim, hd]

/-- **C9** (witness): self-similarity of the concrete embedding `[3, 4]`. -/
theorem C9_cosine_self_similarity_witness :
    tfSim "cosine" [[(3 : ℝ), 4]] [[[(3 : ℝ), 4]]] = Except.ok ([[1]], [[]]) :=
  C9_cosine_self_similarity [3, 4] ⟨3, by simp, by norm_num⟩

/-! ## C10 — ranking invariants of `process` -/

theorem process_true_eq (simType : String) (inv : List (Nat × String))
    (sims : List ℝ) (X : List ℚ) :
    process true simType inv sims X =
      match calculateMessageSimAll simType sims with
      | [] => ((none, 0), [])
      | top :: rest =>
        if X.any (fun x => decide (x ≠ 0)) then
          ((lookupIntent inv top.1, top.2),
           ((top :: rest).take INTENT_RANKING_LENGTH).map
             (fun p => (lookupIntent inv p.1, p.2)))
        else ((none, 0), []) := by
  unfold process
  rw [if_neg (by simp)]

theorem div_mono_of_nonneg {s a b : ℝ} (hs : 0 ≤ s) (h : a ≤ b) : a / s ≤ b / s := by
  rcases eq_or_lt_of_le hs with h0 | h0
  · rw [← h0]
    simp
  · exact (div_le_div_iff_of_pos_right h0).mpr h

theorem calculateMessageSimAll_sorted (simType : String) (sims : List ℝ) :
    List.Sorted rankDesc (calculateMessageSimAll simType sims) := by
  have hs : List.Sorted rankDesc (argsortDescending sims) :=
    List.sorted_insertionSort rankDesc sims.enum
  unfold calculateMessageSimAll
  split
  · exact hs.map _ (fun a b hab => max_le_max hab (le_refl 0))
  · split
    · have hnn : 0 ≤ (sims.map Real.exp).sum :=
        List.sum_nonneg (fun x hx => by
          obtain ⟨y, _, rfl⟩ := List.mem_map.mp hx
          exact (Real.exp_pos y).le)
      exact hs.map _ (fun a b hab => div_mono_of_nonneg hnn (Real.exp_le_exp.mpr hab))
    · exact hs

theorem calculateMessageSimAll_cosine_nonneg (sims : List ℝ) :
    ∀ p ∈ calculateMessageSimAll "cosine" sims, 0 ≤ p.2 := by
  intro p hp
  unfold calculateMessageSimAll at hp
  rw [if_pos rfl] at hp
  obtain ⟨q, _, rfl⟩ := List.mem_map.mp hp
  exact le_max_right q.2 0

theorem calculateMessageSimAll_inner_sum (sims : List ℝ) (h : sims ≠ []) :
    ((calculateMessageSimAll "inner" sims).map (fun p => p.2)).sum = 1 := by
  have hpos : 0 < (sims.map Real.exp).sum := by
    apply List.sum_pos
    · intro x hx
      obtain ⟨y, _, rfl⟩ := List.mem_map.mp hx
      exact Real.exp_pos y
    · simpa using h
  unfold calculateMessageSimAll argsortDescending
  rw [if_neg (by decide), if_pos rfl, List.map_map]
  have hone : ((fun p : Nat × ℝ => p.2) ∘
      (fun p : Nat × ℝ => (p.1, Real.exp p.2 / (sims.map Real.exp).sum)))
      = fun p : Nat × ℝ => Real.exp p.2 / (sims.map Real.exp).sum := rfl
  rw [hone, ((List.perm_insertionSort rankDesc sims.enum).map
      (fun p : Nat × ℝ => Real.exp p.2 / (sims.map Real.exp).sum)).sum_eq]
  have htwo : (fun p : Nat × ℝ => Real.exp p.2 / (sims.map Real.exp).sum)
      = ((fun x : ℝ => Real.exp x / (sims.map Real.exp).sum) ∘ Prod.snd) := rfl
  rw [htwo, ← List.map_map, List.enum_map_snd]
  have hthree : (fun x : ℝ => Real.exp x / (sims.map Real.exp).sum)
      = fun x : ℝ => Real.exp x * ((sims.map Real.exp).sum)⁻¹ := by
    funext x
    rw [div_eq_mul_inv]
  rw [hthree, List.sum_map_mul_right, mul_inv_cancel₀ (ne_of_gt hpos)]

/-- **C10**: for a trained instance, the produced ranking is sorted in
non-increasing confidence order, has at most `INTENT_RANKING_LENGTH`
entries, and its first entry (when one exists) is exactly the reported
top intent; cosine confidences are clipped to be nonnegative, and in
inner mode the softmax-normalized full similarity vector sums to 1. -/
theorem C10_ranking_invariants (simType : String) (inv : List (Nat × String))
    (sims : List ℝ) (X : List ℚ) (hne : sims ≠ []) :
    ((process true simType inv sims X).2.map (fun p => p.2)).Sorted
      (fun a b : ℝ => b ≤ a) ∧
    (process true simType inv sims X).2.length ≤ INTENT_RANKING_LENGTH ∧
    ((process true simType inv sims X).2.head?).getD (process true simType inv sims X).1 =
      (process true simType inv sims X).1 ∧
    (simType = "cosine" → ∀ p ∈ (process true simType inv sims X).2, 0 ≤ p.2) ∧
    (simType = "inner" →
      ((calculateMessageSimAll "inner" sims).map (fun p => p.2)).sum = 1) := by
  have hsorted := calculateMessageSimAll_sorted simType sims
  rcases hm : calculateMessageSimAll simType sims with _ | ⟨top, rest⟩
  · have hp : process true simType inv sims X = ((none, 0), []) := by
      rw [process_true_eq, hm]
    rw [hp]
    refine ⟨by simp, by simp, rfl, by simp, fun _ => calculateMessageSimAll_inner_sum sims hne⟩
  · rw [hm] at hsorted
    by_cases hx : X.any (fun x => decide (x ≠ 0)) = true
    · have hp : process true simType inv sims X =
          ((lookupIntent inv top.1, top.2),
           ((top :: rest).take INTENT_RANKING_LENGTH).map
             (fun p => (lookupIntent inv p.1, p.2))) := by
        rw [process_true_eq, hm]
        simp only [if_pos hx]
      rw [hp]
      refine ⟨?_, ?_, ?_, ?_, fun _ => calculateMessageSimAll_inner_sum sims hne⟩
      · rw [List.map_map]
        exact (hsorted.sublist (List.take_sublist _ _)).map _ (fun a b hab => hab)
      · rw [List.length_map]
        exact List.length_take_le _ _
      · rfl
      · intro hc p hp2
        subst hc
        obtain ⟨q, hq, rfl⟩ := List.mem_map.mp hp2
        have hq2 : q ∈ top :: rest := List.take_subset _ _ hq
        exact calculateMessageSimAll_cosine_nonneg sims q (hm ▸ hq2)
    · have hp : process true simType inv sims X = ((none, 0), []) := by
        rw [process_true_eq, hm]
        simp only [if_neg hx]
      rw [hp]
      refine ⟨by simp, by simp, rfl, by simp, fun _ => calculateMessageSimAll_inner_sum sims hne⟩

/-- **C10** (witness): the invariants instantiated for an inner-mode
instance over the similarity vector `[0, 1]`. -/
theorem C10_ranking_invariants_witness :
    ((process true "inner" [(0, "greet"), (1, "bye")] [0, 1] [1]).2.map
      (fun p => p.2)).Sorted (fun a b : ℝ => b ≤ a) ∧
    (process true "inner" [(0, "greet"), (1, "bye")] [0, 1] [1]).2.length ≤
      INTENT_RANKING_LENGTH ∧
    ((calculateMessageSimAll "inner" [0, 1]).map (fun p => p.2)).sum = 1 :=
  ⟨(C10_ranking_invariants "inner" [(0, "greet"), (1, "bye")] [0, 1] [1] (by simp)).1,
   (C10_ranking_invariants "inner" [(0, "greet"), (1, "bye")] [0, 1] [1] (by simp)).2.1,
   (C10_ranking_invariants "inner" [(0, "greet"), (1, "bye")] [0, 1] [1] (by simp)).2.2.2.2 rfl⟩

end EmbeddingClassifier
